import Mathlib

/-!
Shallow embedding of `src/Autobot.py` (telegram-welcome-bot).

The file models, from the source:
  * `get_sheet_hash` (MD5 over the separator-free concatenation of all cell
    values, UTF-8 encoded) — including a full executable MD5;
  * `convert_weekday_kor_to_eng` (the weekday normalizer);
  * the per-row parsing body of `load_configs` (the Row Parser);
  * the cache-update control flow of `load_configs`, with the fetches of
    `get_all_values` / `get_all_records` passed in as possibly-failing inputs;
  * the rule-matching / dispatch parts of `scheduler_loop` and
    `handle_new_members`, producing the list of `send_message` calls;
  * the order in which `load_configs` writes the three module-level cache
    variables (`last_sheet_hash`, `welcome_list`, `schedule_list`), as a
    small-step publication sequence observable by concurrent readers.
-/

set_option maxRecDepth 100000

namespace Autobot

/-! ### MD5 (`hashlib.md5(...).hexdigest()` as used by `get_sheet_hash`) -/

/-- 2^32, the word modulus of MD5. -/
def w32 : Nat := 4294967296

/-- Left-rotation of a 32-bit word (a `Nat` below `2^32`) by `s` bits. -/
def rotl32 (x s : Nat) : Nat :=
  ((x * 2 ^ s) % w32) ||| (x / 2 ^ (32 - s))

/-- The 64 MD5 round constants `K[i] = floor(2^32 * |sin(i+1)|)` (RFC 1321). -/
def md5K : List Nat :=
  [0xd76aa478, 0xe8c7b756, 0x242070db, 0xc1bdceee,
   0xf57c0faf, 0x4787c62a, 0xa8304613, 0xfd469501,
   0x698098d8, 0x8b44f7af, 0xffff5bb1, 0x895cd7be,
   0x6b901122, 0xfd987193, 0xa679438e, 0x49b40821,
   0xf61e2562, 0xc040b340, 0x265e5a51, 0xe9b6c7aa,
   0xd62f105d, 0x02441453, 0xd8a1e681, 0xe7d3fbc8,
   0x21e1cde6, 0xc33707d6, 0xf4d50d87, 0x455a14ed,
   0xa9e3e905, 0xfcefa3f8, 0x676f02d9, 0x8d2a4c8a,
   0xfffa3942, 0x8771f681, 0x6d9d6122, 0xfde5380c,
   0xa4beea44, 0x4bdecfa9, 0xf6bb4b60, 0xbebfbc70,
   0x289b7ec6, 0xeaa127fa, 0xd4ef3085, 0x04881d05,
   0xd9d4d039, 0xe6db99e5, 0x1fa27cf8, 0xc4ac5665,
   0xf4292244, 0x432aff97, 0xab9423a7, 0xfc93a039,
   0x655b59c3, 0x8f0ccc92, 0xffeff47d, 0x85845dd1,
   0x6fa87e4f, 0xfe2ce6e0, 0xa3014314, 0x4e0811a1,
   0xf7537e82, 0xbd3af235, 0x2ad7d2bb, 0xeb86d391]

/-- The 64 per-round left-rotation amounts of MD5. -/
def md5S : List Nat :=
  [7, 12, 17, 22, 7, 12, 17, 22, 7, 12, 17, 22, 7, 12, 17, 22,
   5, 9, 14, 20, 5, 9, 14, 20, 5, 9, 14, 20, 5, 9, 14, 20,
   4, 11, 16, 23, 4, 11, 16, 23, 4, 11, 16, 23, 4, 11, 16, 23,
   6, 10, 15, 21, 6, 10, 15, 21, 6, 10, 15, 21, 6, 10, 15, 21]

/-- The MD5 round function on registers `b c d`, per round group. -/
def md5F (i b c d : Nat) : Nat :=
  if i < 16 then (b &&& c) ||| ((b ^^^ 0xffffffff) &&& d)
  else if i < 32 then (d &&& b) ||| ((d ^^^ 0xffffffff) &&& c)
  else if i < 48 then b ^^^ c ^^^ d
  else c ^^^ (b ||| (d ^^^ 0xffffffff))

/-- The MD5 message-word schedule. -/
def md5G (i : Nat) : Nat :=
  if i < 16 then i
  else if i < 32 then (5 * i + 1) % 16
  else if i < 48 then (3 * i + 5) % 16
  else (7 * i) % 16

/-- One of the 64 MD5 rounds; `M` gives the 16 message words of the block. -/
def md5Step (M : Nat → Nat) (st : Nat × Nat × Nat × Nat) (i : Nat) :
    Nat × Nat × Nat × Nat :=
  let a := st.1
  let b := st.2.1
  let c := st.2.2.1
  let d := st.2.2.2
  let f := (md5F i b c d + a + md5K.getD i 0 + M (md5G i)) % w32
  (d, (b + rotl32 f (md5S.getD i 0)) % w32, b, c)

/-- The `j`-th little-endian 32-bit word of a 64-byte block. -/
def blockWord (block : List Nat) (j : Nat) : Nat :=
  block.getD (4 * j) 0 + 256 * block.getD (4 * j + 1) 0 +
    65536 * block.getD (4 * j + 2) 0 + 16777216 * block.getD (4 * j + 3) 0

/-- MD5 compression: process one 64-byte block. -/
def md5Block (st : Nat × Nat × Nat × Nat) (block : List Nat) :
    Nat × Nat × Nat × Nat :=
  let r := (List.range 64).foldl (md5Step (blockWord block)) st
  ((st.1 + r.1) % w32, (st.2.1 + r.2.1) % w32,
   (st.2.2.1 + r.2.2.1) % w32, (st.2.2.2 + r.2.2.2) % w32)

/-- MD5 padding: `0x80`, zeros to 56 mod 64, then bit length as 64-bit LE. -/
def md5Pad (bytes : List Nat) : List Nat :=
  let len := bytes.length
  let padZeros := (119 - len % 64) % 64
  bytes ++ [0x80] ++ List.replicate padZeros 0 ++
    (List.range 8).map (fun i => (8 * len / 256 ^ i) % 256)

/-- Split a padded message into its 64-byte blocks. -/
def md5Blocks (padded : List Nat) : List (List Nat) :=
  (List.range (padded.length / 64)).map (fun i => (padded.drop (64 * i)).take 64)

/-- The MD5 state after absorbing a whole byte string. -/
def md5Bytes (bytes : List Nat) : Nat × Nat × Nat × Nat :=
  (md5Blocks (md5Pad bytes)).foldl md5Block
    (0x67452301, 0xefcdab89, 0x98badcfe, 0x10325476)

/-- Lower-case hex digit. -/
def hexChar (n : Nat) : Char := if n < 10 then Char.ofNat (48 + n) else Char.ofNat (87 + n)

/-- Two hex digits of one byte. -/
def byteHex (b : Nat) : List Char := [hexChar (b / 16), hexChar (b % 16)]

/-- The four bytes of a 32-bit word, little-endian. -/
def wordLEBytes (x : Nat) : List Nat :=
  [x % 256, (x / 256) % 256, (x / 65536) % 256, (x / 16777216) % 256]

/-- `hashlib.md5(bytes).hexdigest()`. -/
def md5Hex (bytes : List Nat) : String :=
  let st := md5Bytes bytes
  String.mk ((([st.1, st.2.1, st.2.2.1, st.2.2.2].map wordLEBytes).flatten.map byteHex).flatten)

/-- UTF-8 encoding of one character, as byte values. -/
def utf8Char (c : Char) : List Nat :=
  let n := c.toNat
  if n < 128 then [n]
  else if n < 2048 then [192 + n / 64, 128 + n % 64]
  else if n < 65536 then [224 + n / 4096, 128 + (n / 64) % 64, 128 + n % 64]
  else [240 + n / 262144, 128 + (n / 4096) % 64, 128 + (n / 64) % 64, 128 + n % 64]

/-- `s.encode('utf-8')` as a byte list. -/
def utf8String (s : String) : List Nat := (s.data.map utf8Char).flatten

/-- `hashlib.md5(s.encode('utf-8')).hexdigest()`. -/
def md5OfString (s : String) : String := md5Hex (utf8String s)

/-! ### Python string primitives used by the source -/

/-- Model of Python `str.strip()` on the character list: drop whitespace from
both ends. -/
def pyStripL (l : List Char) : List Char :=
  ((l.dropWhile Char.isWhitespace).reverse.dropWhile Char.isWhitespace).reverse

/-- Model of Python `str.strip()`. -/
def pyStrip (s : String) : String := String.mk (pyStripL s.data)

/-- Model of Python `str.isdigit()`: nonempty and all characters are digits. -/
def pyIsDigit (s : String) : Bool := !s.data.isEmpty && s.data.all Char.isDigit

/-- Model of Python `str.lower()`: character-wise lower-casing. -/
def pyLower (s : String) : String := String.mk (s.data.map Char.toLower)

/-- Model of Python `str.startswith(t)`. -/
def pyStartsWith (s t : String) : Bool := t.data.isPrefixOf s.data

/-- Numeric value of a digit list, most significant digit first. -/
def digitsVal (l : List Char) : Nat := l.foldl (fun a c => 10 * a + (c.toNat - 48)) 0

/-- Core of Python `int(str)` after stripping: optional sign, then a nonempty
run of decimal digits; anything else raises `ValueError`, modelled as `none`. -/
def parseIntCore : List Char → Option Int
  | [] => none
  | c :: rest =>
    if c = '-' then
      if !rest.isEmpty && rest.all Char.isDigit then some (-(digitsVal rest : Int)) else none
    else if c = '+' then
      if !rest.isEmpty && rest.all Char.isDigit then some ((digitsVal rest : Int)) else none
    else if (c :: rest).all Char.isDigit then some ((digitsVal (c :: rest) : Int)) else none

/-- Model of Python `int(s)` on a string (which itself strips whitespace). -/
def parsePyInt (s : String) : Option Int := parseIntCore (pyStripL s.data)

/-! ### Data model (`Autobot.py` cache entries and send calls) -/

/-- One entry of `welcome_list` as appended by `load_configs`. -/
structure WelcomeRule where
  chat_id : Int
  topic_id : Int
  message : String
  row_num : Nat
  deriving Repr, DecidableEq

/-- One entry of `schedule_list` as appended by `load_configs`. -/
structure ScheduleRule where
  weekday : String
  time : String
  chat_id : Int
  topic_id : Int
  message : String
  row_num : Nat
  deriving Repr, DecidableEq

/-- One record returned by `sheet.get_all_records()`: the five columns the
code reads, each possibly absent from the header (`row.get` then yields
`None`, modelled as `none`).  Values are modelled by their `str()` image. -/
structure RawRow where
  send_day : Option String
  group_id : Option String
  topic_id : Option String
  send_time : Option String
  message : Option String
  deriving Repr, DecidableEq

/-- The module-level cache of `Autobot.py`: `last_sheet_hash` (initially
`None`), `welcome_list` and `schedule_list`. -/
structure CacheState where
  last_sheet_hash : Option String
  welcome_list : List WelcomeRule
  schedule_list : List ScheduleRule
  deriving Repr, DecidableEq

/-- Result of a remote call: a value, a `gspread` `APIError`, or any other
exception. -/
inductive Fetch (α : Type) where
  | ok : α → Fetch α
  | apiError : Fetch α
  | failure : Fetch α
  deriving Repr

/-- One keyword-argument set passed to `bot.send_message`. -/
structure SendCall where
  chat_id : Int
  text : String
  message_thread_id : Option Int
  deriving Repr, DecidableEq

/-! ### `get_sheet_hash` (lines 86-92) -/

/-- The flattened cell string `"".join(flat_list)` of `get_sheet_hash`:
all cell values concatenated with no separator and no row delimiter. -/
def flatCells (values : List (List String)) : String :=
  String.join (values.map String.join)

/-- `get_sheet_hash(values)`: MD5 hex digest of the UTF-8 bytes of the
flattened cell values. -/
def get_sheet_hash (values : List (List String)) : String :=
  md5OfString (flatCells values)

/-! ### `convert_weekday_kor_to_eng` (lines 95-101) -/

/-- The weekday normalizer: strip, look up in the fixed Korean table
(defaulting to `""`), lower-case the result. -/
def convert_weekday_kor_to_eng (kor : String) : String :=
  pyLower
  (if pyStrip kor = "월요일" then "monday"
   else if pyStrip kor = "화요일" then "tuesday"
   else if pyStrip kor = "수요일" then "wednesday"
   else if pyStrip kor = "목요일" then "thursday"
   else if pyStrip kor = "금요일" then "friday"
   else if pyStrip kor = "토요일" then "saturday"
   else if pyStrip kor = "일요일" then "sunday"
   else if pyStrip kor = "입장시" then "on_join"
   else "")

/-! ### The Row Parser: the body of the `for row_num, row in enumerate(data, start=2)`
loop of `load_configs` (lines 143-200) -/

/-- The destination-id parse of lines 159-168: strip; if the string does not
start with `"-100"` and is digits-only, parse `"-100" + s`; otherwise parse
as-is; `ValueError` yields `none` (the row is then skipped). -/
def parse_chat_id (group_id_raw : String) : Option Int :=
  if !pyStartsWith (pyStrip group_id_raw) "-100" && pyIsDigit (pyStrip group_id_raw) then
    parsePyInt ("-100" ++ pyStrip group_id_raw)
  else
    parsePyInt (pyStrip group_id_raw)

/-- Outcome of parsing one record: a welcome rule, a schedule rule, or a
skipped row (every `continue` and the per-row exception handler). -/
inductive RowResult where
  | welcome : WelcomeRule → RowResult
  | schedule : ScheduleRule → RowResult
  | skip : RowResult
  deriving Repr, DecidableEq

/-- The per-row parsing body of `load_configs`: checks the three required
columns, normalizes the weekday, parses the destination id, defaults the
topic id to 0 on blank or unparseable input, and requires a nonblank time
for non-`on_join` rows. -/
def parse_row (row_num : Nat) (row : RawRow) : RowResult :=
  match row.send_day, row.group_id, row.message with
  | some send_day_raw, some group_id_raw, some message_raw =>
    let wd := convert_weekday_kor_to_eng send_day_raw
    if wd = "" then .skip
    else
      match parse_chat_id group_id_raw with
      | none => .skip
      | some cid =>
        let tid_raw := row.topic_id.getD "0"
        let tid := if pyStrip tid_raw = "" then 0 else (parsePyInt tid_raw).getD 0
        let msg := message_raw
        let send_time_raw := pyStrip (row.send_time.getD "")
        if wd = "on_join" then
          .welcome { chat_id := cid, topic_id := tid, message := msg, row_num := row_num }
        else if send_time_raw = "" then .skip
        else
          .schedule { weekday := wd, time := send_time_raw, chat_id := cid,
                      topic_id := tid, message := msg, row_num := row_num }
  | _, _, _ => .skip

/-- The whole row loop, numbering records from 2 (`enumerate(data, start=2)`),
building the two temporary lists in order. -/
def build_lists_aux : Nat → List RawRow → List WelcomeRule × List ScheduleRule
  | _, [] => ([], [])
  | n, r :: rs =>
    let rest := build_lists_aux (n + 1) rs
    match parse_row n r with
    | .welcome w => (w :: rest.1, rest.2)
    | .schedule s => (rest.1, s :: rest.2)
    | .skip => rest

/-- `temp_welcome_list, temp_schedule_list` after the full loop. -/
def build_lists (data : List RawRow) : List WelcomeRule × List ScheduleRule :=
  build_lists_aux 2 data

/-! ### `load_configs` (lines 104-216)

The two remote reads (`sheet.get_all_values()`, `sheet.get_all_records()`)
are passed in as `Fetch` inputs; every failure of the earlier connection
steps behaves like a failing first fetch (all are caught by the same outer
handlers, lines 213-216, leaving the cache as it was at that point).
Note the source order: `last_sheet_hash` is reassigned at line 135, BEFORE
`get_all_records()` runs at line 137; the two lists are reassigned only at
lines 203-204 after the loop. -/

/-- One `load_configs()` call: `urlAndTokenSet` models the line-108 check of
`SPREADSHEET_URL` / `BASE_TOKEN`, `credsFound` the line-117 check of the
credentials file. -/
def load_configs (urlAndTokenSet credsFound : Bool)
    (fetchValues : Fetch (List (List String)))
    (fetchRecords : Fetch (List RawRow))
    (st : CacheState) : CacheState :=
  if !urlAndTokenSet then st
  else if !credsFound then st
  else
    match fetchValues with
    | .apiError => st
    | .failure => st
    | .ok values =>
      if some (get_sheet_hash values) = st.last_sheet_hash then st
      else
        match fetchRecords with
        | .apiError => { st with last_sheet_hash := some (get_sheet_hash values) }
        | .failure => { st with last_sheet_hash := some (get_sheet_hash values) }
        | .ok data =>
          { last_sheet_hash := some (get_sheet_hash values),
            welcome_list := (build_lists data).1,
            schedule_list := (build_lists data).2 }

/-! ### Dispatch kwargs (lines 263-269 and 399-404, identical in both sites) -/

/-- The kwargs dict built before `bot.send_message(**kwargs)`:
`message_thread_id` is added only when `cfg["topic_id"]` is truthy and not
in `[0, 1]`. -/
def send_kwargs (chat_id : Int) (text : String) (topic_id : Int) : SendCall :=
  { chat_id := chat_id, text := text,
    message_thread_id :=
      if topic_id != 0 && !([0, 1].contains topic_id) then some topic_id else none }

/-! ### Scheduler evaluation (lines 392-410) -/

/-- One evaluating pass of `scheduler_loop` over `schedule_list`, given the
already-computed `current_weekday` and `current_time_hm` strings: each rule
whose weekday and time both match dispatches one send (in list order). -/
def scheduler_evaluate : List ScheduleRule → String → String → List SendCall
  | [], _, _ => []
  | cfg :: rest, current_weekday, current_time_hm =>
    (if cfg.weekday == current_weekday && cfg.time == current_time_hm then
      [send_kwargs cfg.chat_id cfg.message cfg.topic_id]
    else []) ++ scheduler_evaluate rest current_weekday current_time_hm

/-! ### `handle_new_members` (lines 232-276) -/

/-- A joined member as the handler reads it: `first_name`, and the optional
(`None`-able, possibly empty and then falsy) `last_name` and `username`. -/
structure TgUser where
  first_name : String
  last_name : Option String
  username : Option String
  deriving Repr, DecidableEq

/-- The `user_info` string of lines 238-242: first name, then last name when
truthy, then `" (@username)"` when truthy. -/
def user_display (u : TgUser) : String :=
  let s := u.first_name
  let s := match u.last_name with
    | some ln => if ln != "" then s ++ " " ++ ln else s
    | none => s
  match u.username with
  | some un => if un != "" then s ++ " (@" ++ un ++ ")" else s
  | none => s

/-- Model of Python `str.replace(old, new)` for nonempty `old`: replace
non-overlapping occurrences left to right.  The `skip` counter carries how
many already-matched characters remain to be consumed. -/
def pyReplaceAux (old new : List Char) : List Char → Nat → List Char
  | [], _ => []
  | c :: cs, skip =>
    match skip with
    | k + 1 => pyReplaceAux old new cs k
    | 0 =>
      if old.isPrefixOf (c :: cs) then
        new ++ pyReplaceAux old new cs (old.length - 1)
      else c :: pyReplaceAux old new cs 0

/-- Model of Python `s.replace(old, new)` (for the nonempty pattern the
source uses). -/
def pyReplace (s old new : String) : String :=
  String.mk (pyReplaceAux old.data new.data s.data 0)

/-- The inner loop of lines 246-276 for one member: for every welcome rule
whose `chat_id` equals the event's chat id, substitute the `{new_user}`
placeholder and dispatch. -/
def welcome_sends : List WelcomeRule → Int → TgUser → List SendCall
  | [], _, _ => []
  | cfg :: rest, chat_id, u =>
    (if chat_id == cfg.chat_id then
      [send_kwargs cfg.chat_id (pyReplace cfg.message "{new_user}" (user_display u)) cfg.topic_id]
    else []) ++ welcome_sends rest chat_id u

/-- `handle_new_members`: for every joined member, run the welcome-rule loop;
an empty member list returns immediately (line 233). -/
def handle_new_members (wl : List WelcomeRule) (chat_id : Int) :
    List TgUser → List SendCall
  | [] => []
  | u :: rest => welcome_sends wl chat_id u ++ handle_new_members wl chat_id rest

/-! ### Publication order of a successful reload

During a reload that fetched records successfully, the three module-level
cache variables are reassigned in this source order:
line 135 `last_sheet_hash = current_hash`, then (after the whole row loop)
line 203 `welcome_list = temp_welcome_list`, then line 204
`schedule_list = temp_schedule_list`.  Each single assignment is atomic for
a concurrent reader (the bot handler thread), so the states a reader can
observe are exactly the four below, in order. -/

/-- The cache states observable by a concurrent reader while a successful
reload publishes `newHash`, `newW`, `newS` over `old`: before any write,
after the line-135 hash write, after the line-203 welcome write, and after
the line-204 schedule write. -/
def states_during_reload (old : CacheState) (newHash : String)
    (newW : List WelcomeRule) (newS : List ScheduleRule) : List CacheState :=
  [old,
   { old with last_sheet_hash := some newHash },
   { old with last_sheet_hash := some newHash, welcome_list := newW },
   { last_sheet_hash := some newHash, welcome_list := newW, schedule_list := newS }]

/-! ### Helper lemmas -/

/-- The scheduler pass is the filter of matching rules, each mapped to its
send call. -/
lemma scheduler_evaluate_eq_filter (l : List ScheduleRule) (wd hm : String) :
    scheduler_evaluate l wd hm =
      (l.filter fun cfg => cfg.weekday == wd && cfg.time == hm).map
        (fun cfg => send_kwargs cfg.chat_id cfg.message cfg.topic_id) := by
  induction l with
  | nil => rfl
  | cons cfg rest ih =>
    simp only [scheduler_evaluate, List.filter_cons]
    cases h : (cfg.weekday == wd && cfg.time == hm) <;> simp [h, ih]

/-- The per-member welcome loop is the filter of rules for the chat, each
mapped to its personalized send call. -/
lemma welcome_sends_eq_filter (wl : List WelcomeRule) (cid : Int) (u : TgUser) :
    welcome_sends wl cid u =
      (wl.filter fun cfg => cid == cfg.chat_id).map
        (fun cfg => send_kwargs cfg.chat_id
          (pyReplace cfg.message "{new_user}" (user_display u)) cfg.topic_id) := by
  induction wl with
  | nil => rfl
  | cons cfg rest ih =>
    simp only [welcome_sends, List.filter_cons]
    cases h : (cid == cfg.chat_id) <;> simp [h, ih]

/-- The join handler is the member-wise concatenation of the per-member
welcome loops. -/
lemma handle_new_members_eq (wl : List WelcomeRule) (cid : Int) (ms : List TgUser) :
    handle_new_members wl cid ms =
      (ms.map (fun u => (wl.filter fun cfg => cid == cfg.chat_id).map
        (fun cfg => send_kwargs cfg.chat_id
          (pyReplace cfg.message "{new_user}" (user_display u)) cfg.topic_id))).flatten := by
  induction ms with
  | nil => rfl
  | cons u rest ih => simp [handle_new_members, welcome_sends_eq_filter, ih]

/-- The kwargs of a dispatched send carry the thread id exactly when it is
neither 0 nor 1. -/
lemma send_kwargs_thread (c : Int) (m : String) (t : Int) :
    (send_kwargs c m t).message_thread_id = if t = 0 ∨ t = 1 then none else some t := by
  by_cases h0 : t = 0
  · subst h0; simp [send_kwargs]
  · by_cases h1 : t = 1
    · subst h1; simp [send_kwargs]
    · simp [send_kwargs, h0, h1]

/-- A thread id actually included in a send call is neither 0 nor 1. -/
lemma send_kwargs_thread_ne (c : Int) (m : String) (t : Int) :
    (send_kwargs c m t).message_thread_id ≠ some 0 ∧
      (send_kwargs c m t).message_thread_id ≠ some 1 := by
  rw [send_kwargs_thread]
  split
  · exact ⟨Option.noConfusion, Option.noConfusion⟩
  · rename_i h
    push_neg at h
    exact ⟨fun hc => h.1 (Option.some.inj hc), fun hc => h.2 (Option.some.inj hc)⟩

/-- Length of the sends of one evaluation: one per (member, matching rule)
pair. -/
lemma handle_new_members_length (wl : List WelcomeRule) (cid : Int) (ms : List TgUser) :
    (handle_new_members wl cid ms).length =
      ms.length * (wl.filter fun cfg => cid == cfg.chat_id).length := by
  induction ms with
  | nil => simp [handle_new_members]
  | cons u rest ih =>
    simp only [handle_new_members, List.length_append, ih,
      welcome_sends_eq_filter, List.length_map, List.length_cons]
    ring

/-- Dropping while a predicate that holds nowhere in the list is the
identity. -/
lemma dropWhile_eq_of_all_false {α : Type} (p : α → Bool) (l : List α)
    (h : ∀ c ∈ l, p c = false) : l.dropWhile p = l := by
  cases l with
  | nil => rfl
  | cons a l => rw [List.dropWhile_cons, h a (by simp)]; simp

/-- Stripping a string none of whose characters is whitespace is the
identity. -/
lemma pyStripL_eq_of_no_ws {l : List Char}
    (h : ∀ c ∈ l, c.isWhitespace = false) : pyStripL l = l := by
  unfold pyStripL
  rw [dropWhile_eq_of_all_false _ _ h,
    dropWhile_eq_of_all_false _ _ (fun c hc => h c (List.mem_reverse.1 hc)),
    List.reverse_reverse]

/-- A decimal digit is not whitespace. -/
lemma digit_not_ws {c : Char} (h : c.isDigit = true) : c.isWhitespace = false := by
  by_contra hws
  rw [Bool.not_eq_false] at hws
  simp only [Char.isWhitespace] at hws
  rcases Bool.or_eq_true_iff.1 hws with h1 | h1
  · rcases Bool.or_eq_true_iff.1 h1 with h2 | h2
    · rcases Bool.or_eq_true_iff.1 h2 with h3 | h3 <;>
        · rw [decide_eq_true_iff] at h3; subst h3; exact absurd h (by decide)
    · rw [decide_eq_true_iff] at h2; subst h2; exact absurd h (by decide)
  · rw [decide_eq_true_iff] at h1; subst h1; exact absurd h (by decide)

/-- Stripping a digits-only string is the identity. -/
lemma pyStrip_of_digits {s : String} (h : pyIsDigit s = true) : pyStrip s = s := by
  obtain ⟨-, hall⟩ := Bool.and_eq_true_iff.1 h
  rw [List.all_eq_true] at hall
  show String.mk (pyStripL s.data) = s
  rw [pyStripL_eq_of_no_ws (fun c hc => digit_not_ws (hall c hc))]

/-- A digits-only string does not start with the "-100" convention. -/
lemma not_startsWith_dash100_of_digits {s : String} (h : pyIsDigit s = true) :
    pyStartsWith s "-100" = false := by
  obtain ⟨hne, hall⟩ := Bool.and_eq_true_iff.1 h
  rw [List.all_eq_true] at hall
  unfold pyStartsWith
  cases hd : s.data with
  | nil => rw [hd] at hne; simp at hne
  | cons c rest =>
    have hc : c.isDigit = true := hall c (by rw [hd]; simp)
    have hcne : ('-' == c) = false := by
      rw [beq_eq_false_iff_ne]
      intro he
      rw [← he] at hc
      exact absurd hc (by decide)
    show List.isPrefixOf ['-', '1', '0', '0'] (c :: rest) = false
    simp [List.isPrefixOf, hcne]

/-- Accumulator form of `digitsVal`. -/
lemma digitsVal_foldl (l : List Char) :
    ∀ a : Nat, l.foldl (fun a c => 10 * a + (c.toNat - 48)) a =
      a * 10 ^ l.length + digitsVal l := by
  induction l with
  | nil => intro a; simp [digitsVal]
  | cons c l ih =>
    intro a
    show List.foldl (fun a c => 10 * a + (c.toNat - 48)) (10 * a + (c.toNat - 48)) l =
      a * 10 ^ (c :: l).length +
        List.foldl (fun a c => 10 * a + (c.toNat - 48)) (10 * 0 + (c.toNat - 48)) l
    rw [ih (10 * a + (c.toNat - 48)), ih (10 * 0 + (c.toNat - 48)), List.length_cons]
    ring

/-- Character data of prepending the "-100" convention. -/
lemma dash100_data (s : String) :
    ("-100" ++ s).data = '-' :: '1' :: '0' :: '0' :: s.data := by
  rw [String.data_append]; rfl

/-- Parsing a digits-only string with the "-100" convention prepended yields
the corresponding negative chat id. -/
lemma parsePyInt_dash100 {s : String} (h : pyIsDigit s = true) :
    parsePyInt ("-100" ++ s) =
      some (-(100 * 10 ^ s.data.length + (digitsVal s.data : Int))) := by
  obtain ⟨-, hall⟩ := Bool.and_eq_true_iff.1 h
  rw [List.all_eq_true] at hall
  unfold parsePyInt
  rw [dash100_data, pyStripL_eq_of_no_ws]
  · have hdig : ('1' :: '0' :: '0' :: s.data).all Char.isDigit = true := by
      simp only [List.all_cons]
      rw [List.all_eq_true.2 hall]
      decide
    have hv : digitsVal ('1' :: '0' :: '0' :: s.data) =
        100 * 10 ^ s.data.length + digitsVal s.data := digitsVal_foldl s.data 100
    simp only [parseIntCore, if_pos rfl, List.isEmpty_cons, Bool.not_false, hdig,
      Bool.and_self, if_true, hv]
    push_cast
    ring_nf
  · intro c hc
    simp only [List.mem_cons] at hc
    rcases hc with rfl | rfl | rfl | rfl | hc
    · decide
    · decide
    · decide
    · decide
    · exact digit_not_ws (hall c hc)

/-! ### Claim theorems -/

/-- C2: a ScheduledRule dispatches in an evaluating pass iff its weekday
equals the current weekday and its "HH:MM" string equals the current one;
each matching rule yields exactly one send in list order (no de-duplication,
duplicates both fire), and a non-matching rule yields nothing.  In the
concrete scenario, the Monday-09:00 rule dispatches one send to -100111
with text "A" and no thread parameter, and dispatches nothing at Monday
09:01 or Tuesday 09:00. -/
theorem scheduler_dispatch_characterization :
    (∀ (l : List ScheduleRule) (wd hm : String),
      scheduler_evaluate l wd hm =
        (l.filter fun cfg => cfg.weekday == wd && cfg.time == hm).map
          (fun cfg => send_kwargs cfg.chat_id cfg.message cfg.topic_id)) ∧
    scheduler_evaluate [⟨"monday", "09:00", -100111, 0, "A", 2⟩] "monday" "09:00" =
      [⟨-100111, "A", none⟩] ∧
    scheduler_evaluate [⟨"monday", "09:00", -100111, 0, "A", 2⟩] "monday" "09:01" = [] ∧
    scheduler_evaluate [⟨"monday", "09:00", -100111, 0, "A", 2⟩] "tuesday" "09:00" = [] ∧
    scheduler_evaluate [⟨"monday", "09:00", -100111, 0, "A", 2⟩,
        ⟨"monday", "09:00", -100111, 0, "A", 2⟩] "monday" "09:00" =
      [⟨-100111, "A", none⟩, ⟨-100111, "A", none⟩] :=
  ⟨scheduler_evaluate_eq_filter, by decide, by decide, by decide, by decide⟩

/-- C6: a join event with members `ms` on chat `cid` dispatches exactly
`ms.length * R` sends where `R` is the number of matching welcome rules,
one per (member, matching rule) pair, each with the `{new_user}` placeholder
replaced by that member's display name; zero matching rules dispatch
nothing.  The concrete scenario with two joined users and one matching rule
produces exactly the two personalized sends. -/
theorem join_event_dispatch_characterization :
    (∀ (wl : List WelcomeRule) (cid : Int) (ms : List TgUser),
      handle_new_members wl cid ms =
        (ms.map (fun u => (wl.filter fun cfg => cid == cfg.chat_id).map
          (fun cfg => send_kwargs cfg.chat_id
            (pyReplace cfg.message "{new_user}" (user_display u)) cfg.topic_id))).flatten) ∧
    (∀ (wl : List WelcomeRule) (cid : Int) (ms : List TgUser),
      (handle_new_members wl cid ms).length =
        ms.length * (wl.filter fun cfg => cid == cfg.chat_id).length) ∧
    (∀ (wl : List WelcomeRule) (cid : Int) (ms : List TgUser),
      (wl.filter fun cfg => cid == cfg.chat_id) = [] →
      handle_new_members wl cid ms = []) ∧
    handle_new_members [⟨-100111, 0, "hi {new_user}", 2⟩] (-100111)
      [⟨"Ann", none, none⟩, ⟨"Bob", none, some "bb"⟩] =
      [⟨-100111, "hi Ann", none⟩, ⟨-100111, "hi Bob (@bb)", none⟩] := by
  refine ⟨handle_new_members_eq, handle_new_members_length, ?_, by decide⟩
  intro wl cid ms h
  rw [handle_new_members_eq, h]
  simp

/-- C6 witness: with no rule matching chat -100999, the join event for two
members dispatches nothing. -/
theorem join_event_dispatch_characterization_witness :
    handle_new_members [⟨-100111, 0, "hi {new_user}", 2⟩] (-100999)
      [⟨"Ann", none, none⟩, ⟨"Bob", none, some "bb"⟩] = [] :=
  join_event_dispatch_characterization.2.2.1
    [⟨-100111, 0, "hi {new_user}", 2⟩] (-100999)
    [⟨"Ann", none, none⟩, ⟨"Bob", none, some "bb"⟩] (by decide)

/-- C7: a send call carries `message_thread_id` iff the rule's topic id is
neither 0 nor 1 (in which case it carries exactly that id), and no send
dispatched by the scheduler pass or the join handler ever carries thread id
0 or 1. -/
theorem thread_param_inclusion :
    (∀ (c : Int) (m : String) (t : Int),
      (send_kwargs c m t).message_thread_id = if t = 0 ∨ t = 1 then none else some t) ∧
    (∀ (l : List ScheduleRule) (wd hm : String) (s : SendCall),
      s ∈ scheduler_evaluate l wd hm →
      s.message_thread_id ≠ some 0 ∧ s.message_thread_id ≠ some 1) ∧
    (∀ (wl : List WelcomeRule) (cid : Int) (ms : List TgUser) (s : SendCall),
      s ∈ handle_new_members wl cid ms →
      s.message_thread_id ≠ some 0 ∧ s.message_thread_id ≠ some 1) := by
  refine ⟨send_kwargs_thread, ?_, ?_⟩
  · intro l wd hm s hs
    rw [scheduler_evaluate_eq_filter] at hs
    obtain ⟨cfg, -, rfl⟩ := List.mem_map.1 hs
    exact send_kwargs_thread_ne _ _ _
  · intro wl cid ms s hs
    rw [handle_new_members_eq] at hs
    obtain ⟨l, hl, hsl⟩ := List.mem_flatten.1 hs
    obtain ⟨u, -, rfl⟩ := List.mem_map.1 hl
    obtain ⟨cfg, -, rfl⟩ := List.mem_map.1 hsl
    exact send_kwargs_thread_ne _ _ _

/-- C7 witness: the send of a rule with topic id 5 carries thread id 5 and
in particular not 0 or 1; topic ids 0 and 1 yield no thread parameter. -/
theorem thread_param_inclusion_witness :
    ((send_kwargs (-100111) "A" 5).message_thread_id = if (5 : Int) = 0 ∨ (5 : Int) = 1
      then none else some 5) ∧
    (send_kwargs (-100111) "A" 5).message_thread_id ≠ some 0 ∧
    (send_kwargs (-100111) "A" 5).message_thread_id ≠ some 1 :=
  ⟨thread_param_inclusion.1 (-100111) "A" 5,
   thread_param_inclusion.2.1 [⟨"monday", "09:00", -100111, 5, "A", 2⟩] "monday" "09:00"
     (send_kwargs (-100111) "A" 5) (by decide)⟩

/-- C3: the fingerprint of a raw table is a pure function of the table (the
same table always hashes identically), and a second `load_configs` call that
fetches the same raw table is a no-op on the whole cache — whatever the
record fetch of either call returned — because the hash comparison takes
the cheap path. -/
theorem second_load_of_same_table_is_noop (st : CacheState)
    (values : List (List String)) (fr1 fr2 : Fetch (List RawRow)) :
    load_configs true true (.ok values) fr2 (load_configs true true (.ok values) fr1 st) =
      load_configs true true (.ok values) fr1 st := by
  by_cases h : some (get_sheet_hash values) = st.last_sheet_hash
  · simp [load_configs, h]
  · cases fr1 <;> simp [load_configs, h]

/-- C10: the tables `[["ab", "c"]]` and `[["a", "bc"]]` are distinct (their
cell boundaries differ) yet flatten to the same separator-free string, so
they share one fingerprint; when the source switches from the first to the
second, the loader takes the no-change path and leaves the whole cache,
rule lists included, untouched. -/
theorem concatenation_fingerprint_collision_noop :
    ([["ab", "c"]] : List (List String)) ≠ [["a", "bc"]] ∧
    flatCells [["ab", "c"]] = flatCells [["a", "bc"]] ∧
    get_sheet_hash [["ab", "c"]] = get_sheet_hash [["a", "bc"]] ∧
    (∀ fr : Fetch (List RawRow),
      load_configs true true (.ok [["a", "bc"]]) fr
        ⟨some (get_sheet_hash [["ab", "c"]]), [⟨-100123, 0, "hello", 2⟩],
         [⟨"monday", "09:00", -100555, 0, "A", 3⟩]⟩ =
      ⟨some (get_sheet_hash [["ab", "c"]]), [⟨-100123, 0, "hello", 2⟩],
       [⟨"monday", "09:00", -100555, 0, "A", 3⟩]⟩) := by
  refine ⟨by decide, by decide, by decide, fun fr => ?_⟩
  have hh : get_sheet_hash [["a", "bc"]] = get_sheet_hash [["ab", "c"]] := by decide
  simp [load_configs, hh]

/-- C1 (code evaluated at the failing input): starting from a cache holding
fingerprint "oldhash" and nonempty rule lists, a load that sees a changed
table `[["x"]]` and then fails fetching the header-keyed records (APIError)
leaves both lists intact but REPLACES the cached fingerprint with the new
hash before failing; consequently the next load of the same table — records
now available — takes the no-change path and never rebuilds the lists.  This
contradicts the claim that the fingerprint keeps its prior value and is
replaced only together with the lists in one all-or-nothing step. -/
theorem load_failure_updates_fingerprint :
    load_configs true true (.ok [["x"]]) .apiError
      ⟨some "oldhash", [⟨-100123, 0, "hello", 2⟩], [⟨"monday", "09:00", -100555, 0, "A", 3⟩]⟩ =
      ⟨some (get_sheet_hash [["x"]]), [⟨-100123, 0, "hello", 2⟩],
       [⟨"monday", "09:00", -100555, 0, "A", 3⟩]⟩ ∧
    get_sheet_hash [["x"]] ≠ "oldhash" ∧
    load_configs true true (.ok [["x"]])
      (.ok [⟨some "입장시", some "777", none, none, some "newW"⟩])
      ⟨some (get_sheet_hash [["x"]]), [⟨-100123, 0, "hello", 2⟩],
       [⟨"monday", "09:00", -100555, 0, "A", 3⟩]⟩ =
      ⟨some (get_sheet_hash [["x"]]), [⟨-100123, 0, "hello", 2⟩],
       [⟨"monday", "09:00", -100555, 0, "A", 3⟩]⟩ := by
  refine ⟨by decide, by decide, ?_⟩
  simp [load_configs]

/-- C9 (code evaluated at the failing interleaving): during a successful
reload the three cache variables are written in the source order
`last_sheet_hash` (line 135), `welcome_list` (line 203), `schedule_list`
(line 204), so a concurrent reader interleaved between the two list writes
observes the state listed third below: the NEW welcome list together with
the OLD schedule list — a mix of fetch N+1 and fetch N that is neither the
entirely-old nor the entirely-new snapshot.  This contradicts the claimed
single-step swap of both lists and the fingerprint. -/
theorem reader_observable_mixed_snapshot :
    states_during_reload
        ⟨some "oldhash", [⟨-100123, 0, "old", 2⟩], [⟨"monday", "09:00", -100555, 0, "oldS", 3⟩]⟩
        (get_sheet_hash [["x"]])
        [⟨-100777, 0, "newW", 2⟩] [⟨"tuesday", "10:00", -100888, 0, "newS", 3⟩] =
      [⟨some "oldhash", [⟨-100123, 0, "old", 2⟩], [⟨"monday", "09:00", -100555, 0, "oldS", 3⟩]⟩,
       ⟨some (get_sheet_hash [["x"]]), [⟨-100123, 0, "old", 2⟩],
        [⟨"monday", "09:00", -100555, 0, "oldS", 3⟩]⟩,
       ⟨some (get_sheet_hash [["x"]]), [⟨-100777, 0, "newW", 2⟩],
        [⟨"monday", "09:00", -100555, 0, "oldS", 3⟩]⟩,
       load_configs true true (.ok [["x"]])
         (.ok [⟨some "입장시", some "777", none, none, some "newW"⟩,
               ⟨some "화요일", some "888", none, some "10:00", some "newS"⟩])
         ⟨some "oldhash", [⟨-100123, 0, "old", 2⟩],
          [⟨"monday", "09:00", -100555, 0, "oldS", 3⟩]⟩] ∧
    (⟨some (get_sheet_hash [["x"]]), [⟨-100777, 0, "newW", 2⟩],
      [⟨"monday", "09:00", -100555, 0, "oldS", 3⟩]⟩ : CacheState) ≠
      ⟨some "oldhash", [⟨-100123, 0, "old", 2⟩], [⟨"monday", "09:00", -100555, 0, "oldS", 3⟩]⟩ ∧
    (⟨some (get_sheet_hash [["x"]]), [⟨-100777, 0, "newW", 2⟩],
      [⟨"monday", "09:00", -100555, 0, "oldS", 3⟩]⟩ : CacheState) ≠
      load_configs true true (.ok [["x"]])
        (.ok [⟨some "입장시", some "777", none, none, some "newW"⟩,
              ⟨some "화요일", some "888", none, some "10:00", some "newS"⟩])
        ⟨some "oldhash", [⟨-100123, 0, "old", 2⟩],
         [⟨"monday", "09:00", -100555, 0, "oldS", 3⟩]⟩ := by
  refine ⟨by decide, by decide, by decide⟩

/-- C4: a digits-only destination-id cell never carries the "-100" start and
parses to the negative id obtained by prepending "-100" (concretely,
"123456789" yields -100123456789); a cell already starting with "-100" is
parsed as-is (concretely "-100123456789" yields itself); a cell whose
chat-id parse fails under both rules makes the Row Parser skip the row. -/
theorem chat_id_parsing_characterization :
    (∀ s : String, pyIsDigit s = true →
      pyStartsWith s "-100" = false ∧
      parse_chat_id s = some (-(100 * 10 ^ s.data.length + (digitsVal s.data : Int)))) ∧
    (∀ s : String, pyStrip s = s → pyStartsWith s "-100" = true →
      parse_chat_id s = parsePyInt s) ∧
    parse_chat_id "123456789" = some (-100123456789) ∧
    parse_chat_id "-100123456789" = some (-100123456789) ∧
    (∀ (n : Nat) (row : RawRow) (s : String), row.group_id = some s →
      parse_chat_id s = none → parse_row n row = RowResult.skip) := by
  refine ⟨?_, ?_, by decide, by decide, ?_⟩
  · intro s h
    have hstrip : pyStrip s = s := pyStrip_of_digits h
    have hpre : pyStartsWith s "-100" = false := not_startsWith_dash100_of_digits h
    refine ⟨hpre, ?_⟩
    unfold parse_chat_id
    rw [hstrip, hpre, h]
    simp only [Bool.not_false, Bool.and_self, if_true]
    exact parsePyInt_dash100 h
  · intro s hstrip hpre
    unfold parse_chat_id
    rw [hstrip, hpre]
    simp
  · intro n row s hg hnone
    obtain ⟨sd, gid, tid, stime, msg⟩ := row
    simp only at hg
    subst hg
    cases sd with
    | none => rfl
    | some d =>
      cases msg with
      | none => rfl
      | some m =>
        simp only [parse_row]
        split
        · rfl
        · rw [hnone]

/-- C4 witness: the general digits-only rule applied to "123456789", and a
row whose destination id "abc" fails both parses is skipped. -/
theorem chat_id_parsing_characterization_witness :
    (pyStartsWith "123456789" "-100" = false ∧
      parse_chat_id "123456789" =
        some (-(100 * 10 ^ (String.data "123456789").length +
          (digitsVal (String.data "123456789") : Int)))) ∧
    parse_row 2 ⟨some "입장시", some "abc", none, none, some "m"⟩ = RowResult.skip :=
  ⟨chat_id_parsing_characterization.1 "123456789" (by decide),
   chat_id_parsing_characterization.2.2.2.2 2
     ⟨some "입장시", some "abc", none, none, some "m"⟩ "abc" rfl (by decide)⟩

/-- C5: a raw row missing any of the three required fields (weekday label,
destination id, message text) parses to a skip; the Row Parser is total
(every row yields a welcome rule, a schedule rule, or a skip — it cannot
raise), and a skipped row leaves the processing of all remaining rows
exactly as if it were absent. -/
theorem row_parser_skip_containment :
    (∀ (n : Nat) (row : RawRow),
      row.send_day = none ∨ row.group_id = none ∨ row.message = none →
      parse_row n row = RowResult.skip) ∧
    (∀ (n : Nat) (row : RawRow),
      parse_row n row = RowResult.skip ∨
        (∃ w, parse_row n row = RowResult.welcome w) ∨
        ∃ s, parse_row n row = RowResult.schedule s) ∧
    (∀ (n : Nat) (row : RawRow) (rest : List RawRow),
      parse_row n row = RowResult.skip →
      build_lists_aux n (row :: rest) = build_lists_aux (n + 1) rest) := by
  refine ⟨?_, ?_, ?_⟩
  · intro n row h
    obtain ⟨sd, gid, tid, stime, msg⟩ := row
    simp only at h
    rcases h with h | h | h <;> subst h
    · cases gid <;> cases msg <;> rfl
    · cases sd <;> cases msg <;> rfl
    · cases sd <;> cases gid <;> rfl
  · intro n row
    cases h : parse_row n row with
    | skip => exact Or.inl rfl
    | welcome w => exact Or.inr (Or.inl ⟨w, rfl⟩)
    | schedule s => exact Or.inr (Or.inr ⟨s, rfl⟩)
  · intro n row rest h
    simp [build_lists_aux, h]

/-- C5 witness: a row with no weekday label is skipped, and prepending it to
a table leaves the rest of the table parsed as before. -/
theorem row_parser_skip_containment_witness :
    parse_row 2 ⟨none, some "123", none, some "09:00", some "A"⟩ = RowResult.skip ∧
    build_lists_aux 2 [⟨none, some "123", none, some "09:00", some "A"⟩,
        ⟨some "월요일", some "-100555", some "0", some "09:00", some "A"⟩] =
      build_lists_aux 3 [⟨some "월요일", some "-100555", some "0", some "09:00", some "A"⟩] :=
  ⟨row_parser_skip_containment.1 2 ⟨none, some "123", none, some "09:00", some "A"⟩
     (Or.inl rfl),
   row_parser_skip_containment.2.2 2 ⟨none, some "123", none, some "09:00", some "A"⟩
     [⟨some "월요일", some "-100555", some "0", some "09:00", some "A"⟩]
     (row_parser_skip_containment.1 2 ⟨none, some "123", none, some "09:00", some "A"⟩
       (Or.inl rfl))⟩

/-- Folding string append from an accumulator. -/
lemma strFoldl_append (l : List String) :
    ∀ a : String, l.foldl (· ++ ·) a = a ++ l.foldl (· ++ ·) "" := by
  induction l with
  | nil => intro a; exact (String.append_empty a).symm
  | cons b l ih =>
    intro a
    simp only [List.foldl_cons]
    rw [ih (a ++ b), ih ("" ++ b), String.empty_append, String.append_assoc]

/-- Join of a cons. -/
lemma strJoin_cons (a : String) (l : List String) :
    String.join (a :: l) = a ++ String.join l := by
  show List.foldl (· ++ ·) ("" ++ a) l = a ++ List.foldl (· ++ ·) "" l
  rw [String.empty_append, strFoldl_append]

/-- Join distributes over append. -/
lemma strJoin_append (l1 l2 : List String) :
    String.join (l1 ++ l2) = String.join l1 ++ String.join l2 := by
  induction l1 with
  | nil => exact (String.empty_append _).symm
  | cons a l1 ih =>
    rw [List.cons_append, strJoin_cons, ih, strJoin_cons, String.append_assoc]

/-- The flattened cells of appended row blocks. -/
lemma flatCells_append (v1 v2 : List (List String)) :
    flatCells (v1 ++ v2) = flatCells v1 ++ flatCells v2 := by
  unfold flatCells
  rw [List.map_append, strJoin_append]

/-- The flattened cells of a leading row. -/
lemma flatCells_cons (r : List String) (v : List (List String)) :
    flatCells (r :: v) = String.join r ++ flatCells v := by
  unfold flatCells
  rw [List.map_cons, strJoin_cons]

/-- Join of a row around one distinguished cell. -/
lemma strJoin_middle (pre suf : List String) (c : String) :
    String.join (pre ++ c :: suf) = String.join pre ++ (c ++ String.join suf) := by
  rw [strJoin_append, strJoin_cons]

/-- C8 counterexample: the two 72-character tables below differ in exactly
their one cell (one character of it), yet `get_sheet_hash` gives them the
same fingerprint (they are a known MD5 collision pair), and a load after the
cell change takes the no-change path: the rule lists are not rebuilt. -/
theorem single_cell_md5_collision_noop :
    ("TEXTCOLLBYfGiJUETHQ4hAcKSMd5zYpgqf1YRDhkmxHkhPWptrkoyz28wnI9V0aHeAuaKnak" : String) ≠
      "TEXTCOLLBYfGiJUETHQ4hEcKSMd5zYpgqf1YRDhkmxHkhPWptrkoyz28wnI9V0aHeAuaKnak" ∧
    get_sheet_hash
        [["TEXTCOLLBYfGiJUETHQ4hAcKSMd5zYpgqf1YRDhkmxHkhPWptrkoyz28wnI9V0aHeAuaKnak"]] =
      get_sheet_hash
        [["TEXTCOLLBYfGiJUETHQ4hEcKSMd5zYpgqf1YRDhkmxHkhPWptrkoyz28wnI9V0aHeAuaKnak"]] ∧
    load_configs true true
      (.ok [["TEXTCOLLBYfGiJUETHQ4hEcKSMd5zYpgqf1YRDhkmxHkhPWptrkoyz28wnI9V0aHeAuaKnak"]])
      (.ok [⟨some "입장시", some "777", none, none, some "newW"⟩])
      ⟨some (get_sheet_hash
          [["TEXTCOLLBYfGiJUETHQ4hAcKSMd5zYpgqf1YRDhkmxHkhPWptrkoyz28wnI9V0aHeAuaKnak"]]),
       [⟨-100123, 0, "old", 2⟩], [⟨"monday", "09:00", -100555, 0, "oldS", 3⟩]⟩ =
      ⟨some (get_sheet_hash
          [["TEXTCOLLBYfGiJUETHQ4hAcKSMd5zYpgqf1YRDhkmxHkhPWptrkoyz28wnI9V0aHeAuaKnak"]]),
       [⟨-100123, 0, "old", 2⟩], [⟨"monday", "09:00", -100555, 0, "oldS", 3⟩]⟩ := by
  refine ⟨by decide, by decide, ?_⟩
  have hh : get_sheet_hash
      [["TEXTCOLLBYfGiJUETHQ4hEcKSMd5zYpgqf1YRDhkmxHkhPWptrkoyz28wnI9V0aHeAuaKnak"]] =
    get_sheet_hash
      [["TEXTCOLLBYfGiJUETHQ4hAcKSMd5zYpgqf1YRDhkmxHkhPWptrkoyz28wnI9V0aHeAuaKnak"]] := by
    decide
  simp [load_configs, hh]

/-- C8 amended: changing a single cell to a different value always changes
the flattened concatenation that is hashed; the fingerprint itself changes
except when the two concatenations collide under MD5 (such collisions
exist, see the counterexample), and whenever the computed fingerprint
differs from the cached one the load takes the full-reparse path, rebuilding
both rule lists from the fetched records. -/
theorem single_cell_change_flat_and_reparse :
    (∀ (rows1 rows2 : List (List String)) (pre suf : List String) (c1 c2 : String),
      c1 ≠ c2 →
      flatCells (rows1 ++ (pre ++ c1 :: suf) :: rows2) ≠
        flatCells (rows1 ++ (pre ++ c2 :: suf) :: rows2)) ∧
    (∀ (st : CacheState) (values : List (List String)) (data : List RawRow),
      some (get_sheet_hash values) ≠ st.last_sheet_hash →
      load_configs true true (.ok values) (.ok data) st =
        ⟨some (get_sheet_hash values), (build_lists data).1, (build_lists data).2⟩) := by
  constructor
  · intro rows1 rows2 pre suf c1 c2 hne h
    apply hne
    rw [flatCells_append, flatCells_append, flatCells_cons, flatCells_cons,
      strJoin_middle, strJoin_middle] at h
    have hd := congrArg String.data h
    simp only [String.data_append, List.append_assoc] at hd
    exact String.ext
      (List.append_cancel_right
        (List.append_cancel_left (List.append_cancel_left hd)))
  · intro st values data h
    simp [load_configs, h]

/-- C8 amended witness: changing the middle cell of `["a", "x", "b"]` to
`"y"` changes the flattened string, and a load whose fingerprint differs
from the cached one (here: the empty cache) rebuilds the lists. -/
theorem single_cell_change_flat_and_reparse_witness :
    flatCells [["a", "x", "b"]] ≠ flatCells [["a", "y", "b"]] ∧
    load_configs true true (.ok [["x"]]) (.ok []) ⟨none, [], []⟩ =
      ⟨some (get_sheet_hash [["x"]]), [], []⟩ :=
  ⟨single_cell_change_flat_and_reparse.1 [] [] ["a"] ["b"] "x" "y" (by decide),
   single_cell_change_flat_and_reparse.2 ⟨none, [], []⟩ [["x"]] [] (by simp)⟩

end Autobot
